import Mathlib

/-!
Verification development for `rf/rfstream.py` (receiver-function stream
processing).  The Python source is shallowly embedded: header values,
times and sample values are modelled as rationals, the per-trace `stats`
mapping is a record of optional canonical fields plus optional
format-specific sub-mappings, and fallible Python code is modelled with
`Except String`.  External collaborators (obspy primitives, the travel
time service, `rf.deconvolve`, `rf.util`) appear either as function
parameters or, where a claim depends on them, as definitions modelled
from the specification (each such definition is marked in its doc
comment).
-/

set_option maxRecDepth 20000

deriving instance DecidableEq for Except

namespace RF

/-! ## Python string helpers

`'-12345' in str(value)` and `'%s'`-formatting are the concrete bits of
Python string semantics the source relies on; they are modelled on
`List Char`. -/

/-- `leadsWith needle hay` is true when `needle` is an initial segment of `hay`. -/
def leadsWith : List Char → List Char → Bool
  | [], _ => true
  | _ :: _, [] => false
  | a :: as, b :: bs => a = b && leadsWith as bs

/-- Python substring containment `needle in hay` on character lists. -/
def subOccurs (needle : List Char) : List Char → Bool
  | [] => needle.isEmpty
  | c :: rest => leadsWith needle (c :: rest) || subOccurs needle rest

/-- Python `needle in hay` on strings (contiguous substring containment). -/
def pySubstr (needle hay : String) : Bool :=
  subOccurs needle.data hay.data

/-- Decimal digit characters of a natural number, most significant first. -/
def digitsOf (n : Nat) : List Char := Nat.toDigits 10 n

/-- Decimal character representation of an integer (Python `str` of an `int`). -/
def intChars (i : Int) : List Char :=
  if i < 0 then '-' :: digitsOf i.natAbs else digitsOf i.natAbs

/-- Smallest exponent `k ≤ 39` with `den ∣ 10 ^ k`, when one exists. -/
def pow10Exp (den : Nat) : Option Nat :=
  (List.range 40).find? (fun k => 10 ^ k % den = 0)

/-- Left-pad a digit list with zeros to length `k`. -/
def padZeros (k : Nat) (ds : List Char) : List Char :=
  List.replicate (k - ds.length) '0' ++ ds

/-- Python `str` of a numeric header value, modelled on `ℚ`: integers render
without a fractional part, terminating decimals render in positional notation
(the notation Python uses for the magnitudes stored in seismic headers; the
scientific-notation regime of very large or tiny floats is outside the header
value domain modelled here).  Non-terminating rationals fall back to a
fraction rendering; they do not arise as float values. -/
def pyStrQ (q : ℚ) : List Char :=
  if q.den = 1 then intChars q.num
  else
    match pow10Exp q.den with
    | some k =>
        let scaled : Nat := q.num.natAbs * (10 ^ k / q.den)
        let ip : Nat := scaled / 10 ^ k
        let fp : Nat := scaled % 10 ^ k
        (if q.num < 0 then ['-'] else []) ++ digitsOf ip ++ '.' :: padZeros k (digitsOf fp)
    | none => intChars q.num ++ '/' :: digitsOf q.den

/-- The SAC unset-sentinel test from the decode loop:
`'-12345' in str(value)`. -/
def hasSentinel (cs : List Char) : Bool :=
  subOccurs ['-', '1', '2', '3', '4', '5'] cs

/-- Python `%`-formatting restricted to `%s` placeholders: substitutes the
arguments left to right; leftover arguments after the last placeholder are
the `TypeError` Python raises from `msg % args`. -/
def pctFormat : List Char → List String → Except String (List Char)
  | [], [] => .ok []
  | [], _ :: _ => .error "TypeError: not all arguments converted during string formatting"
  | '%' :: 's' :: rest, a :: args => (pctFormat rest args).map (fun r => a.data ++ r)
  | '%' :: 's' :: _, [] =>
      .error "TypeError: not enough arguments for format string"
  | c :: rest, args => (pctFormat rest args).map (fun r => c :: r)

/-- Python `str.upper()` on ASCII strings. -/
def pyUpper (s : String) : String := ⟨s.data.map Char.toUpper⟩

/-! ## Canonical header set and per-trace stats

`HEADERS` (rfstream.py lines 44-46) is a fixed ordered 16-tuple of canonical
field names; it is embedded as the inductive `Head`, in source order. -/

/-- The canonical header names, in the order of the `HEADERS` tuple. -/
inductive Head where
  | station_latitude | station_longitude | station_elevation
  | event_latitude | event_longitude | event_depth | event_magnitude | event_time
  | onset | distance | back_azimuth | inclination | slowness
  | pp_latitude | pp_longitude | pp_depth
deriving DecidableEq, Repr

/-- The `HEADERS` tuple in source order. -/
def allHeads : List Head :=
  [.station_latitude, .station_longitude, .station_elevation,
   .event_latitude, .event_longitude, .event_depth, .event_magnitude, .event_time,
   .onset, .distance, .back_azimuth, .inclination, .slowness,
   .pp_latitude, .pp_longitude, .pp_depth]

/-- The canonical fields of a trace's `stats`; a `none` field is a key that is
absent from the stats mapping. -/
structure Canon where
  station_latitude : Option ℚ := none
  station_longitude : Option ℚ := none
  station_elevation : Option ℚ := none
  event_latitude : Option ℚ := none
  event_longitude : Option ℚ := none
  event_depth : Option ℚ := none
  event_magnitude : Option ℚ := none
  event_time : Option ℚ := none
  onset : Option ℚ := none
  distance : Option ℚ := none
  back_azimuth : Option ℚ := none
  inclination : Option ℚ := none
  slowness : Option ℚ := none
  pp_latitude : Option ℚ := none
  pp_longitude : Option ℚ := none
  pp_depth : Option ℚ := none
deriving DecidableEq, Repr

/-- `st[head]` for a canonical head. -/
def canonGet (c : Canon) : Head → Option ℚ
  | .station_latitude => c.station_latitude
  | .station_longitude => c.station_longitude
  | .station_elevation => c.station_elevation
  | .event_latitude => c.event_latitude
  | .event_longitude => c.event_longitude
  | .event_depth => c.event_depth
  | .event_magnitude => c.event_magnitude
  | .event_time => c.event_time
  | .onset => c.onset
  | .distance => c.distance
  | .back_azimuth => c.back_azimuth
  | .inclination => c.inclination
  | .slowness => c.slowness
  | .pp_latitude => c.pp_latitude
  | .pp_longitude => c.pp_longitude
  | .pp_depth => c.pp_depth

/-- `st[head] = v` for a canonical head. -/
def canonSet (c : Canon) : Head → ℚ → Canon
  | .station_latitude, v => { c with station_latitude := some v }
  | .station_longitude, v => { c with station_longitude := some v }
  | .station_elevation, v => { c with station_elevation := some v }
  | .event_latitude, v => { c with event_latitude := some v }
  | .event_longitude, v => { c with event_longitude := some v }
  | .event_depth, v => { c with event_depth := some v }
  | .event_magnitude, v => { c with event_magnitude := some v }
  | .event_time, v => { c with event_time := some v }
  | .onset, v => { c with onset := some v }
  | .distance, v => { c with distance := some v }
  | .back_azimuth, v => { c with back_azimuth := some v }
  | .inclination, v => { c with inclination := some v }
  | .slowness, v => { c with slowness := some v }
  | .pp_latitude, v => { c with pp_latitude := some v }
  | .pp_longitude, v => { c with pp_longitude := some v }
  | .pp_depth, v => { c with pp_depth := some v }

/-- The string name of a canonical head, as used as a JSON key in the SH
`COMMENT` payload. -/
def headName : Head → String
  | .station_latitude => "station_latitude"
  | .station_longitude => "station_longitude"
  | .station_elevation => "station_elevation"
  | .event_latitude => "event_latitude"
  | .event_longitude => "event_longitude"
  | .event_depth => "event_depth"
  | .event_magnitude => "event_magnitude"
  | .event_time => "event_time"
  | .onset => "onset"
  | .distance => "distance"
  | .back_azimuth => "back_azimuth"
  | .inclination => "inclination"
  | .slowness => "slowness"
  | .pp_latitude => "pp_latitude"
  | .pp_longitude => "pp_longitude"
  | .pp_depth => "pp_depth"

/-- Resolve a JSON key against the canonical header names.  `st.update` with a
key outside the canonical set writes a stats entry outside the model's scope,
so such keys resolve to `none` and are dropped by `canonSetByName`. -/
def nameToHead (k : String) : Option Head :=
  allHeads.find? (fun h => headName h = k)

/-- One `st.update` assignment from a decoded JSON payload entry. -/
def canonSetByName (c : Canon) (k : String) (v : ℚ) : Canon :=
  match nameToHead k with
  | some h => canonSet c h v
  | none => c

/-- `st.update(json.loads(value))`: merge the payload entries left to right. -/
def applyPayload (c : Canon) (pay : List (String × ℚ)) : Canon :=
  pay.foldl (fun acc kv => canonSetByName acc kv.1 kv.2) c

/-- The SAC sub-mapping slots named by `FORMATHEADERS['sac']`
(rfstream.py lines 49-52), positionally aligned with `HEADERS`. -/
structure SacMap where
  stla : Option ℚ := none
  stlo : Option ℚ := none
  stel : Option ℚ := none
  evla : Option ℚ := none
  evlo : Option ℚ := none
  evdp : Option ℚ := none
  mag : Option ℚ := none
  o : Option ℚ := none
  a : Option ℚ := none
  gcarc : Option ℚ := none
  baz : Option ℚ := none
  user0 : Option ℚ := none
  user1 : Option ℚ := none
  user2 : Option ℚ := none
  user3 : Option ℚ := none
  user4 : Option ℚ := none
deriving DecidableEq, Repr

/-- The SH sub-mapping slots named by `FORMATHEADERS['sh']`
(rfstream.py lines 54-58).  Six canonical heads share the single `COMMENT`
slot, which carries a JSON object; it is kept apart from the numeric slots. -/
structure ShMap where
  lat : Option ℚ := none
  lon : Option ℚ := none
  depth : Option ℚ := none
  magnitude : Option ℚ := none
  origin : Option ℚ := none
  ponset : Option ℚ := none
  distance : Option ℚ := none
  azimuth : Option ℚ := none
  inci : Option ℚ := none
  slowness : Option ℚ := none
  comment : Option (List (String × ℚ)) := none
deriving DecidableEq, Repr

/-- The slice of a trace's `stats` the header codec touches.  `sacReftime`
stands for `get_sac_reftime(stats.sac)`: it is computed from SAC reference
fields (`nz*`) that are not among the sixteen codec slots, so the codec never
changes it. -/
structure Stats where
  canon : Canon
  sac : Option SacMap := none
  sh : Option ShMap := none
  sacReftime : ℚ := 0
deriving DecidableEq, Repr

def emptySacMap : SacMap := {}

def emptyShMap : ShMap := {}

/-! ## Header codec: encode (`_write_format_specific_header`) -/

/-- One encode-loop iteration for a field without a registered conversion:
`st[format][head_format] = st[head]`; an absent canonical field is skipped
(`except KeyError: continue`), leaving the native slot as it was. -/
def slotWrite (canonVal old : Option ℚ) : Option ℚ :=
  match canonVal with
  | none => old
  | some v => some v

/-- Encode-loop iteration for the two SAC fields with a registered conversion
(`__UTC2SAC`): the stored native value is `st[head] - get_sac_reftime(stats.sac)`. -/
def slotWriteSacConv (reftime : ℚ) (canonVal old : Option ℚ) : Option ℚ :=
  match canonVal with
  | none => old
  | some v => some (v - reftime)

/-- `_write_format_specific_header` for format `'sac'`: each line mirrors one
`(head, head_format)` pair of `zip(HEADERS, FORMATHEADERS['sac'])` in order
(the sixteen slots are distinct, so the loop is a simultaneous update);
`_HEADER_CONVERSIONS['sac']` registers `__UTC2SAC` for `event_time` (slot `o`)
and `onset` (slot `a`).  When `'sac' not in stats` the source first creates
the sub-mapping with `obspy_to_sac_header`, whose sixteen codec slots are
unset. -/
def writeSacMap (reftime : ℚ) (c : Canon) (m : SacMap) : SacMap :=
  { stla := slotWrite c.station_latitude m.stla
    stlo := slotWrite c.station_longitude m.stlo
    stel := slotWrite c.station_elevation m.stel
    evla := slotWrite c.event_latitude m.evla
    evlo := slotWrite c.event_longitude m.evlo
    evdp := slotWrite c.event_depth m.evdp
    mag := slotWrite c.event_magnitude m.mag
    o := slotWriteSacConv reftime c.event_time m.o
    a := slotWriteSacConv reftime c.onset m.a
    gcarc := slotWrite c.distance m.gcarc
    baz := slotWrite c.back_azimuth m.baz
    user0 := slotWrite c.inclination m.user0
    user1 := slotWrite c.slowness m.user1
    user2 := slotWrite c.pp_latitude m.user2
    user3 := slotWrite c.pp_longitude m.user3
    user4 := slotWrite c.pp_depth m.user4 }

/-- `_write_format_specific_header` for `'sac'`: the sub-mapping is created
with `obspy_to_sac_header` when absent, then updated slot-wise. -/
def writeSac (st : Stats) : Stats :=
  { st with sac := some (writeSacMap st.sacReftime st.canon (st.sac.getD emptySacMap)) }

/-- Whether `FORMATHEADERS['sh']` maps a canonical head to the `COMMENT` slot. -/
def shUsesComment : Head → Bool
  | .station_latitude => true
  | .station_longitude => true
  | .station_elevation => true
  | .pp_latitude => true
  | .pp_longitude => true
  | .pp_depth => true
  | _ => false

/-- The JSON `comment` record accumulated by the SH encode loop: the six
`COMMENT`-mapped heads (`station_latitude`, `station_longitude`,
`station_elevation`, `pp_latitude`, `pp_longitude`, `pp_depth`) that are
present in stats, in `HEADERS` order. -/
def commentPayload (c : Canon) : List (String × ℚ) :=
  ((allHeads.filter (fun h => shUsesComment h)).filterMap
    (fun h => (canonGet c h).map (fun v => (headName h, v))))

/-- `_write_format_specific_header` for formats `'sh'` and `'q'` (the `q`
alias is normalised to `sh` before lookup): `COMMENT`-mapped heads are
accumulated into the `comment` record instead of being written; the rest are
written slot-wise (no conversions are registered for sh); at the end the
`COMMENT` slot is overwritten with the serialised record only when the record
is non-empty (`len(comment) > 0`), otherwise a pre-existing `COMMENT` value
survives. -/
def writeShMap (c : Canon) (m : ShMap) : ShMap :=
  let pay := commentPayload c
  { lat := slotWrite c.event_latitude m.lat
    lon := slotWrite c.event_longitude m.lon
    depth := slotWrite c.event_depth m.depth
    magnitude := slotWrite c.event_magnitude m.magnitude
    origin := slotWrite c.event_time m.origin
    ponset := slotWrite c.onset m.ponset
    distance := slotWrite c.distance m.distance
    azimuth := slotWrite c.back_azimuth m.azimuth
    inci := slotWrite c.inclination m.inci
    slowness := slotWrite c.slowness m.slowness
    comment := if pay.isEmpty then m.comment else some pay }

/-- `_write_format_specific_header` for `'sh'` and `'q'`: an absent
sub-mapping is created empty (`st[format] = AttribDict({})`). -/
def writeSh (st : Stats) : Stats :=
  { st with sh := some (writeShMap st.canon (st.sh.getD emptyShMap)) }

/-! ## Header codec: decode (`_read_format_specific_header`) -/

/-- One decode-loop iteration for a SAC slot without a registered conversion:
a missing slot is skipped (`except KeyError: continue`); a value whose string
representation contains `'-12345'` is dropped (`pass`); otherwise
`st[head] = value`. -/
def slotReadSac (slot old : Option ℚ) : Option ℚ :=
  match slot with
  | none => old
  | some v => if hasSentinel (pyStrQ v) then old else some v

/-- Decode-loop iteration for the two SAC slots with a registered conversion
(`__SAC2UTC`).  The conversion `st[head] = get_sac_reftime(stats.sac) +
st[head]` sits outside the sentinel test, so it runs even when the sentinel
skipped the copy, on whatever `st[head]` already holds.  Three outcomes:
when the copy happened, `st[head]` is the float just read from the native
slot and `UTCDateTime + float` succeeds; when the copy was skipped and
`st[head]` is absent, the `KeyError` raised inside the conversion is
swallowed (`except KeyError: pass`); when the copy was skipped but a
canonical value was retained, that value is an absolute time (a
`UTCDateTime` — `rfstats` and every previous decode store one there), and
obspy supports no `UTCDateTime + UTCDateTime` (only `__sub__` special-cases
a `UTCDateTime` operand), so the uncaught `TypeError` escapes the decode. -/
def slotReadSacConv (reftime : ℚ) (slot old : Option ℚ) : Except String (Option ℚ) :=
  match slot with
  | none => .ok old
  | some v =>
      if hasSentinel (pyStrQ v) then
        match old with
        | none => .ok none
        | some _ =>
          .error "TypeError: unsupported operand type(s) for +: float and UTCDateTime"
      else .ok (some (reftime + v))

/-- Decode-loop positions 0-6 for `'sac'` (the seven plain station/event
slots processed before the convertible ones). -/
def readSacPlainA (m : SacMap) (c : Canon) : Canon :=
  { c with
    station_latitude := slotReadSac m.stla c.station_latitude
    station_longitude := slotReadSac m.stlo c.station_longitude
    station_elevation := slotReadSac m.stel c.station_elevation
    event_latitude := slotReadSac m.evla c.event_latitude
    event_longitude := slotReadSac m.evlo c.event_longitude
    event_depth := slotReadSac m.evdp c.event_depth
    event_magnitude := slotReadSac m.mag c.event_magnitude }

/-- Decode-loop positions 9-15 for `'sac'` (the seven plain slots processed
after the convertible ones). -/
def readSacPlainB (m : SacMap) (c : Canon) : Canon :=
  { c with
    distance := slotReadSac m.gcarc c.distance
    back_azimuth := slotReadSac m.baz c.back_azimuth
    inclination := slotReadSac m.user0 c.inclination
    slowness := slotReadSac m.user1 c.slowness
    pp_latitude := slotReadSac m.user2 c.pp_latitude
    pp_longitude := slotReadSac m.user3 c.pp_longitude
    pp_depth := slotReadSac m.user4 c.pp_depth }

/-- The sixteen `(head, head_format)` iterations of the `'sac'` decode loop
in source order: positions 0-6 plain, position 7 (`event_time`/`o`) and
position 8 (`onset`/`a`) convertible and fallible, positions 9-15 plain and
reached only when no exception was raised.  The iterations touch pairwise
distinct fields; on an exception the partially updated mapping is discarded
by the model, since the exception escapes the read call and no claim
observes the partial state. -/
def readSacCanon (reftime : ℚ) (m : SacMap) (c : Canon) : Except String Canon :=
  match slotReadSacConv reftime m.o (readSacPlainA m c).event_time with
  | .error e => .error e
  | .ok et =>
    match slotReadSacConv reftime m.a (readSacPlainA m c).onset with
    | .error e => .error e
    | .ok onv =>
      .ok { readSacPlainB m (readSacPlainA m c) with event_time := et, onset := onv }

/-- `_read_format_specific_header` for format `'sac'`: an absent sub-mapping
means every slot lookup raises `KeyError` and the stats are untouched; a
`TypeError` from a conversion propagates to the caller. -/
def readSac (st : Stats) : Except String Stats :=
  match st.sac with
  | none => .ok st
  | some m =>
    match readSacCanon st.sacReftime m st.canon with
    | .error e => .error e
    | .ok c' => .ok { st with canon := c' }

/-- One decode-loop iteration that hits the `COMMENT` slot:
`st.update(json.loads(value))`, or `KeyError: continue` when the slot is
absent. -/
def shCommentStep (m : ShMap) (c : Canon) : Canon :=
  match m.comment with
  | none => c
  | some pay => applyPayload c pay

/-- One decode-loop iteration for a numeric SH slot: no sentinel test and no
conversions are registered for sh. -/
def slotReadSh (slot old : Option ℚ) : Option ℚ :=
  match slot with
  | none => old
  | some v => some v

/-- `_read_format_specific_header` for formats `'sh'` and `'q'`.  The
`read_comment` flag is initialised `False` and never set, so all six
`COMMENT`-mapped iterations run: positions 0-2 re-parse the payload before
the ten numeric slots are copied, positions 13-15 re-parse it afterwards. -/
def readShDirect (m : ShMap) (c0 : Canon) : Canon :=
  { c0 with
    event_latitude := slotReadSh m.lat c0.event_latitude
    event_longitude := slotReadSh m.lon c0.event_longitude
    event_depth := slotReadSh m.depth c0.event_depth
    event_magnitude := slotReadSh m.magnitude c0.event_magnitude
    event_time := slotReadSh m.origin c0.event_time
    onset := slotReadSh m.ponset c0.onset
    distance := slotReadSh m.distance c0.distance
    back_azimuth := slotReadSh m.azimuth c0.back_azimuth
    inclination := slotReadSh m.inci c0.inclination
    slowness := slotReadSh m.slowness c0.slowness }

/-- The decode loop for sh: three `COMMENT` iterations (positions 0-2), the
ten numeric copies (positions 3-12), three more `COMMENT` iterations
(positions 13-15). -/
def readShCanon (m : ShMap) (c : Canon) : Canon :=
  shCommentStep m (shCommentStep m (shCommentStep m
    (readShDirect m (shCommentStep m (shCommentStep m (shCommentStep m c))))))

def readSh (st : Stats) : Stats :=
  match st.sh with
  | none => st
  | some m => { st with canon := readShCanon m st.canon }

/-- The formats the codec distinguishes after `format.lower()`. -/
inductive Fmt where
  | sac | sh | q | h5
deriving DecidableEq, Repr

/-- The alias normalisation `if format == 'q': format = 'sh'`. -/
def normFmt : Fmt → Fmt
  | .q => .sh
  | f => f

/-- `_write_format_specific_header(format)`: `h5` returns without touching
anything (the container format stores canonical fields natively). -/
def writeHeader (f : Fmt) (st : Stats) : Stats :=
  match normFmt f with
  | .sac => writeSac st
  | .sh => writeSh st
  | _ => st

/-- `_read_format_specific_header(format)`: `h5` returns without touching
anything; only the sac path can raise (the sh path's payloads are modelled
already parsed). -/
def readHeader (f : Fmt) (st : Stats) : Except String Stats :=
  match normFmt f with
  | .sac => readSac st
  | .sh => .ok (readSh st)
  | _ => .ok st

/-! ## Event/stats merging (`__get_event_origin`, `EVENT_GETTER`, `obj2stats`) -/

/-- An origin record of an ObsPy event; depth is stored in metres. -/
structure Origin where
  latitude : ℚ
  longitude : ℚ
  depth : ℚ
  time : ℚ
deriving DecidableEq, Repr

structure Magnitude where
  mag : ℚ
deriving DecidableEq, Repr

/-- An ObsPy event as the getters consume it: `preferredOrigin` models the
return value of `event.preferred_origin()` (`none` when no preferred origin is
designated), likewise `preferredMagnitude`. -/
structure Event where
  origins : List Origin
  magnitudes : List Magnitude
  preferredOrigin : Option Origin := none
  preferredMagnitude : Option Magnitude := none
deriving DecidableEq, Repr

/-- `event.preferred_origin() or event.origins[0]` (an `IndexError` when both
are missing). -/
def eventOrigin (ev : Event) : Except String Origin :=
  match ev.preferredOrigin with
  | some o => .ok o
  | none =>
    match ev.origins with
    | o :: _ => .ok o
    | [] => .error "IndexError: list index out of range"

/-- `EVENT_GETTER` entry for `event_latitude` (`__get_event_origin('latitude')`). -/
def eventLatitude (ev : Event) : Except String ℚ :=
  (eventOrigin ev).map (fun o => o.latitude)

/-- `EVENT_GETTER` entry for `event_longitude`. -/
def eventLongitude (ev : Event) : Except String ℚ :=
  (eventOrigin ev).map (fun o => o.longitude)

/-- `EVENT_GETTER` entry for `event_depth`:
`event.preferred_origin()['depth'] / 1000.` with no fallback to
`origins[0]` — subscripting `None` is a `TypeError` when no preferred origin
is designated. -/
def eventDepth (ev : Event) : Except String ℚ :=
  match ev.preferredOrigin with
  | some o => .ok (o.depth / 1000)
  | none => .error "TypeError: NoneType object has no attribute __getitem__"

/-- `EVENT_GETTER` entry for `event_magnitude`:
`event.preferred_magnitude()['mag']` with no fallback to `magnitudes[0]`. -/
def eventMagnitude (ev : Event) : Except String ℚ :=
  match ev.preferredMagnitude with
  | some m => .ok m.mag
  | none => .error "TypeError: NoneType object has no attribute __getitem__"

/-- `EVENT_GETTER` entry for `event_time`. -/
def eventTimeGet (ev : Event) : Except String ℚ :=
  (eventOrigin ev).map (fun o => o.time)

/-- The event fields `obj2stats` merges, in `EVENT_GETTER` order. -/
structure EventStats where
  event_latitude : ℚ
  event_longitude : ℚ
  event_depth : ℚ
  event_magnitude : ℚ
  event_time : ℚ
deriving DecidableEq, Repr

/-- The event half of `obj2stats`: `for key, getter in EVENT_GETTER:
stats[key] = getter(event)`, evaluated in tuple order, so the first getter
that raises aborts the merge. -/
def obj2statsEvent (ev : Event) : Except String EventStats := do
  let la ← eventLatitude ev
  let lo ← eventLongitude ev
  let d ← eventDepth ev
  let m ← eventMagnitude ev
  let t ← eventTimeGet ev
  return ⟨la, lo, d, m, t⟩

/-! ## Geometry engine (`rfstats`) -/

/-- One arrival returned by the travel-time service
(`tt_model.get_travel_times`). -/
structure Arrival where
  time : ℚ
  incident_angle : ℚ
  ray_param_sec_degree : ℚ
deriving DecidableEq, Repr

/-- The ray fields `rfstats` writes into stats on success. -/
structure RayFields where
  distance : ℚ
  back_azimuth : ℚ
  inclination : ℚ
  onset : ℚ
  slowness : ℚ
deriving DecidableEq, Repr

/-- The `dist_range` argument: the string default, a falsy value (`None`),
or an explicit pair. -/
inductive DistRangeArg where
  | dflt
  | noRange
  | given (lo hi : ℚ)
deriving DecidableEq, Repr

/-- The effective distance interval after
`if dist_range == 'default' and phase in 'PS': dist_range = (30, 90) if
phase == 'P' else (50, 85)`.  When the phase is not a substring of `'PS'`
the argument keeps the string value `'default'`, which is truthy and whose
first character compares below any number under Python 2's mixed-type
ordering, so the filter always excludes (`strDefault`). -/
inductive EffRange where
  | noFilter
  | interval (lo hi : ℚ)
  | strDefault
deriving DecidableEq, Repr

def effRange (phase : String) (dr : DistRangeArg) : EffRange :=
  match dr with
  | .noRange => .noFilter
  | .given lo hi => .interval lo hi
  | .dflt =>
    if pySubstr phase "PS" then
      (if phase = "P" then .interval 30 90 else .interval 50 85)
    else .strDefault

/-- The warning template at rfstream.py lines 539-540 — note the single
`%s` placeholder. -/
def ttMultiMsg : String :=
  "TauPy returns more than one arrival for phase %s at distance -> take first arrival"

/-- The exception template at rfstream.py line 535 (two placeholders). -/
def ttNoneMsg : String :=
  "TauPy does not return phase %s at distance %s"

/-- The arrival-handling tail of `rfstats`: zero arrivals raise; more than
one arrival evaluates `msg % (phase, dist)` before warning; the first arrival
supplies onset, inclination and slowness. -/
def rfstatsArrival (phase : String) (dist baz event_time : ℚ)
    (arrivals : List Arrival) : Except String (Option (List String × RayFields)) :=
  match arrivals with
  | [] =>
    match pctFormat ttNoneMsg.data [phase, String.mk (pyStrQ dist)] with
    | .ok msg => .error ("Exception: " ++ String.mk msg)
    | .error e => .error e
  | arr :: rest =>
    let warnings : Except String (List String) :=
      if rest.isEmpty then .ok []
      else
        match pctFormat ttMultiMsg.data [phase, String.mk (pyStrQ dist)] with
        | .ok msg => .ok [String.mk msg]
        | .error e => .error e
    match warnings with
    | .error e => .error e
    | .ok ws =>
      .ok (some (ws,
        { distance := dist, back_azimuth := baz,
          inclination := arr.incident_angle,
          onset := event_time + arr.time,
          slowness := arr.ray_param_sec_degree }))

/-- `rfstats` from the distance filter onward, for a single stats record.
The inputs stand for the external collaborators' results: `dist` is the
epicentral distance in degrees (`kilometer2degrees(gps2dist_azimuth(...)/1000)`),
`baz` the back azimuth, and `arrivals` what `tt_model.get_travel_times`
returns at that distance and the event depth.  `.ok none` models the
`return` (i.e. `None`) on distance exclusion; warnings raised on the
multi-arrival path are returned alongside the result. -/
def rfstatsModel (phase0 : String) (dr : DistRangeArg) (dist baz event_time : ℚ)
    (arrivals : List Arrival) : Except String (Option (List String × RayFields)) :=
  match effRange (pyUpper phase0) dr with
  | .strDefault => .ok none
  | .interval lo hi =>
    if lo ≤ dist ∧ dist ≤ hi then rfstatsArrival (pyUpper phase0) dist baz event_time arrivals
    else .ok none
  | .noFilter => rfstatsArrival (pyUpper phase0) dist baz event_time arrivals

/-! ## RF pipeline (`RFStream.rf`, `RFStream.rotate`) -/

/-- A trace as the pipeline consumes it: the identity fields, the stats the
stages read (`starttime`, `sampling_rate`, `onset`), and the sample array. -/
structure PTrace where
  network : String := ""
  station : String := ""
  location : String := ""
  channel : String := ""
  starttime : ℚ := 0
  sampling_rate : ℚ := 1
  onset : ℚ := 0
  data : List ℚ := []
deriving DecidableEq, Repr

/-- ObsPy's derived `stats.endtime`:
`starttime + (npts - 1) / sampling_rate`. -/
def endtimePT (tr : PTrace) : ℚ :=
  tr.starttime + ((tr.data.length : ℚ) - 1) / tr.sampling_rate

/-- The resample stage's per-trace decision (rfstream.py lines 195-198):
`if downsample <= tr.stats.sampling_rate:
tr.decimate(int(tr.stats.sampling_rate) // downsample)`; `none` means the
trace is not passed to `decimate` at all.  `int()` truncates, which for the
positive sampling rate is `⌊sr⌋`, and Python `//` is floor division. -/
def resampleDecision (downsample sr : ℚ) : Option ℤ :=
  if downsample ≤ sr then some ⌊((⌊sr⌋ : ℚ) / downsample)⌋ else none

/-- The resample stage over the collection, with the external
`Trace.decimate` primitive supplied as `decim`. -/
def downsampleStage (decim : PTrace → ℤ → PTrace) (downsample : ℚ)
    (trs : List PTrace) : List PTrace :=
  trs.map (fun tr =>
    match resampleDecision downsample tr.sampling_rate with
    | none => tr
    | some k => decim tr k)

/-- The resample rule in the words of the claim, for comparison with
`resampleDecision`: a rate strictly above the target is decimated by
`floor(current_rate / target_rate)`, a rate at or below it is untouched. -/
def claimResampleDecision (downsample sr : ℚ) : Option ℤ :=
  if downsample < sr then some ⌊sr / downsample⌋ else none

/-- Modelled from the spec: `IterMultipleComponents` lives in `rf.util`, which
is not among the sources.  Spec §4.2: consume the traces in order and cut them
into maximal runs of consecutive traces sharing an identical grouping-key
value (here the onset). -/
def onsetRunsAux (k : ℚ) (cur : List PTrace) : List PTrace → List (List PTrace)
  | [] => [cur.reverse]
  | t :: ts =>
    if t.onset = k then onsetRunsAux k (t :: cur) ts
    else cur.reverse :: onsetRunsAux t.onset [t] ts

/-- Modelled from the spec: the maximal consecutive runs of equal onset. -/
def onsetRuns : List PTrace → List (List PTrace)
  | [] => []
  | t :: ts => onsetRunsAux t.onset [t] ts

/-- Modelled from the spec: `IterMultipleComponents(stream, key='onset',
number_components=(2, 3))` yields the runs whose length is an allowed
component count (2 or 3). -/
def iterMC (trs : List PTrace) : List (List PTrace) :=
  (onsetRuns trs).filter (fun g => g.length = 2 ∨ g.length = 3)

/-- `RFStream.rotate` (rfstream.py lines 128-136) applied to one sub-stream
yielded by the pipeline's grouper.  Its body iterates
`IterMultipleComponents(self, key='onset', number_components=(2, 3))` and for
each yielded group evaluates `super(RFTrace, self).rotate(*args)` — but `self`
is an `RFStream`, which is not an instance of `RFTrace`, so the `super` call
raises `TypeError` on the first group; when no group is yielded the loop body
never runs and the traces are returned untouched (and never rotated). -/
def rfstreamRotate (sub : List PTrace) : Except String (List PTrace) :=
  match iterMC sub with
  | [] => .ok sub
  | _ :: _ => .error "TypeError: super(type, obj): obj must be an instance or subtype of type"

/-- The first exception raised while the rotate stage walks the yielded
groups. -/
def rotateFirstErr : List (List PTrace) → Option String
  | [] => none
  | g :: gs =>
    match rfstreamRotate g with
    | .error e => some e
    | .ok _ => rotateFirstErr gs

/-- The rotate stage of `RFStream.rf` (lines 199-201):
`for stream3c in iter3c(self): stream3c.rotate(rotate)`.  Each `stream3c` is
an `RFStream`, so `stream3c.rotate` is `RFStream.rotate` above; an exception
from any group propagates, and otherwise no trace is modified. -/
def rotateStage (trs : List PTrace) : Except String (List PTrace) :=
  match rotateFirstErr (iterMC trs) with
  | some e => .error e
  | none => .ok trs

/-- The S-method mirroring (lines 210-214): samples are reversed in place and
`onset = starttime + (endtime - onset)`; reversing keeps `npts`, hence
`endtime`, unchanged. -/
def mirror1 (tr : PTrace) : PTrace :=
  { tr with data := tr.data.reverse,
            onset := tr.starttime + (endtimePT tr - tr.onset) }

/-- The polarity loop body (lines 219-221): `tr.stats.channel[-1]` raises
`IndexError` on an empty channel code; a final character that is not a
source-component suffix flips the sign of every sample. -/
def polarityStep (source_components : String) (tr : PTrace) : Except String PTrace :=
  match tr.channel.data.getLast? with
  | none => .error "IndexError: string index out of range"
  | some ch =>
    .ok (if source_components.data.contains ch then tr
         else { tr with data := tr.data.map (fun x => -x) })

/-- The final two stages of `RFStream.rf` (mirroring for `method == 'S'`,
then the polarity loop over every trace). -/
def rfTail (method : String) (source_components : String)
    (trs : List PTrace) : Except String (List PTrace) :=
  (if method = "S" then trs.map mirror1 else trs).mapM
    (polarityStep source_components)

/-- `RFStream.rf` with the delegated primitives supplied as functions:
`filterPrim` is `Stream.filter(**filter)`, `trimPrim` is `Trace.trim`,
`decim` is `Trace.decimate`, and `deconvEffect` is the net effect of the
deconvolve loop on the collection (the external `rf.deconvolve.deconvolve`).
The stages run in source order behind the `method not in 'PS'` guard, which
is Python substring membership. -/
def rfModel (filterPrim : List PTrace → List PTrace)
    (trimPrim : PTrace → ℚ → ℚ → PTrace)
    (decim : PTrace → ℤ → PTrace)
    (deconvEffect : List PTrace → List PTrace)
    (method : String)
    (useFilter : Bool) (window : Option (ℚ × ℚ)) (downsample : Option ℚ)
    (rotateArg : Option String) (deconvolveArg : Option String)
    (source_components : String)
    (trs0 : List PTrace) : Except String (List PTrace) :=
  if ¬ pySubstr method "PS" then .error "NotImplementedError"
  else
    let trs1 := if useFilter then filterPrim trs0 else trs0
    let trs2 :=
      match window with
      | none => trs1
      | some (w1, w2) => trs1.map (fun tr => trimPrim tr (tr.onset + w1) (tr.onset + w2))
    let trs3 :=
      match downsample with
      | none => trs2
      | some d => downsampleStage decim d trs2
    let step4 : Except String (List PTrace) :=
      match rotateArg with
      | none => .ok trs3
      | some _ => rotateStage trs3
    match step4 with
    | .error e => .error e
    | .ok trs4 =>
      let trs5 :=
        match deconvolveArg with
        | none => trs4
        | some _ => deconvEffect trs4
      rfTail method source_components trs5

/-! ## `RFStream.stack` -/

/-- A trace as `stack` consumes it. -/
structure STrace where
  network : String := ""
  station : String := ""
  location : String := ""
  channel : String := ""
  starttime : ℚ := 0
  onset : ℚ := 0
  sampling_rate : ℚ := 1
  data : List ℚ := []
deriving DecidableEq, Repr

/-- `tr.id`, the full identity; grouping compares the four parts (the source
splits the joined string back apart, which agrees with this as long as no
part contains a dot, as for ObsPy identifiers). -/
def sId (tr : STrace) : String × String × String × String :=
  (tr.network, tr.station, tr.location, tr.channel)

/-- `set(tr.id for tr in self)`, modelled with first-occurrence order (the
claims fix no iteration order). -/
def uniqueIds (trs : List STrace) : List (String × String × String × String) :=
  (trs.map sId).dedup

/-- `np.mean(arrays, axis=0)` for the list of a partition's sample arrays:
the element-wise mean for equal-length arrays; NumPy rejects a ragged nested
sequence with a `ValueError`. -/
def npMeanAxis0 : List (List ℚ) → Except String (List ℚ)
  | [] => .error "ValueError: zero-size array"
  | r :: rs =>
    if rs.all (fun x => x.length = r.length) then
      .ok ((rs.foldl (fun acc x => List.zipWith (· + ·) acc x) r).map
            (fun s => s / ((rs.length : ℚ) + 1)))
    else .error "ValueError: ragged nested sequences"

/-- `RFStream.stack` (rfstream.py lines 275-292).  The comprehension
`[tr.data for tr in self if tr.id == id]` leaks its loop variable in
Python 2, so after it `tr` is the last trace of the whole stream — the
`sampling_rate` header and the re-attached onset offset are taken from that
trace, for every identity.  The new trace's `starttime` is the epoch default
of a headerless `RFTrace`, so `onset` becomes `0 + (tr.onset - tr.starttime)`. -/
def stackModel (trs : List STrace) : Except String (List STrace) :=
  match trs.getLast? with
  | none => .ok []
  | some lastTr =>
    (uniqueIds trs).mapM (fun id =>
      match npMeanAxis0 ((trs.filter (fun tr => sId tr = id)).map
          (fun tr => tr.data)) with
      | .error e => .error e
      | .ok meanData =>
        .ok { network := id.1, station := id.2.1, location := id.2.2.1,
              channel := id.2.2.2,
              starttime := 0,
              onset := 0 + (lastTr.onset - lastTr.starttime),
              sampling_rate := lastTr.sampling_rate,
              data := meanData })

/-! ## Claim C2: the multi-arrival warning path -/

/-- C2: the claim says a travel-time query returning more than one arrival
makes `rfstats` emit exactly one non-fatal warning and use the first
arrival.  The claim is right about the intent but the code is wrong: the
warning template `ttMultiMsg` has a single `%s` placeholder while
`msg % (phase, dist)` supplies two arguments, so the interpolation itself
raises `TypeError: not all arguments converted during string formatting`
before `warn` is ever called, and `rfstats` propagates that exception
instead of warning (contrast the zero-arrival message, which correctly uses
two placeholders).  Evaluated here at a two-arrival query for phase `'P'`
at 35 degrees inside the default window. -/
theorem c2_multi_arrival_formatting_bug :
    rfstatsModel "P" .dflt 35 10 100 [⟨50, 20, 6⟩, ⟨55, 21, 7⟩]
      = .error "TypeError: not all arguments converted during string formatting" ∧
    rfstatsArrival "P" 35 10 100 [⟨50, 20, 6⟩, ⟨55, 21, 7⟩]
      = .error "TypeError: not all arguments converted during string formatting" := by
  exact ⟨rfl, rfl⟩

/-! ## Claim C3: the `method not in 'PS'` guard -/

/-- C3 counterexample: `'PS'` is neither `'P'` nor `'S'`, yet
`'PS' not in 'PS'` is `False` (Python `in` on strings is substring
containment), so `RFStream.rf` does not raise and runs the pipeline to
completion. -/
theorem c3_method_ps_passes_guard :
    ("PS" ≠ "P" ∧ "PS" ≠ "S") ∧ pySubstr "PS" "PS" = true ∧
    rfModel id (fun tr _ _ => tr) (fun tr _ => tr) id "PS"
        false none none none none "LZ" [] = .ok [] := by
  refine ⟨⟨by decide, by decide⟩, by decide, rfl⟩

/-- C3 (amended): `RFStream.rf` raises `NotImplementedError` immediately —
before any stage runs, whatever the supplied primitives and arguments — for
every `method` value that is not a contiguous substring of `'PS'`; the
substrings `''`, `'P'`, `'S'` and `'PS'` pass the guard. -/
theorem c3_method_guard (filterPrim : List PTrace → List PTrace)
    (trimPrim : PTrace → ℚ → ℚ → PTrace) (decim : PTrace → ℤ → PTrace)
    (deconvEffect : List PTrace → List PTrace) (method : String)
    (useFilter : Bool) (window : Option (ℚ × ℚ)) (downsample : Option ℚ)
    (rotateArg deconvolveArg : Option String) (source_components : String)
    (trs0 : List PTrace) (h : pySubstr method "PS" = false) :
    rfModel filterPrim trimPrim decim deconvEffect method useFilter window
      downsample rotateArg deconvolveArg source_components trs0
      = .error "NotImplementedError" := by
  simp [rfModel, h]

theorem c3_method_guard_witness :
    pySubstr "Q" "PS" = false ∧
    rfModel id (fun tr _ _ => tr) (fun tr _ => tr) id "Q"
        false none none none none "LZ" [] = .error "NotImplementedError" :=
  ⟨by decide,
   c3_method_guard id (fun tr _ _ => tr) (fun tr _ => tr) id "Q"
     false none none none none "LZ" [] (by decide)⟩

/-! ## Claim C4: the rotate stage -/

def c4trN : PTrace := { channel := "HHN", onset := 5, data := [1, 2] }

def c4trE : PTrace := { channel := "HHE", onset := 5, data := [3, 4] }

/-- C4: the claim says the rotate stage groups 2- or 3-component sets on
identical onset and rotates each group without raising.  The code cannot do
this: each yielded group is an `RFStream`, so `stream3c.rotate(rotate)` is
`RFStream.rotate`, whose loop body evaluates `super(RFTrace, self).rotate`
with `self` an `RFStream` — `RFStream` is not a subtype of `RFTrace`, so
Python raises `TypeError` on the first group (and even absent that slip the
call would rotate `self`, not the group).  Evaluated here at a complete
two-component group with a shared onset: the grouper yields the pair, and
the rotate stage (and a full `rf` call with a rotation spec) raises instead
of rotating. -/
theorem c4_rotate_stage_raises :
    iterMC [c4trN, c4trE] = [[c4trN, c4trE]] ∧
    rfstreamRotate [c4trN, c4trE]
      = .error "TypeError: super(type, obj): obj must be an instance or subtype of type" ∧
    rotateStage [c4trN, c4trE]
      = .error "TypeError: super(type, obj): obj must be an instance or subtype of type" ∧
    rfModel id (fun tr _ _ => tr) (fun tr _ => tr) id "P"
        false none none (some "ZNE->LQT") (some "time") "LZ" [c4trN, c4trE]
      = .error "TypeError: super(type, obj): obj must be an instance or subtype of type" := by
  exact ⟨rfl, rfl, rfl, rfl⟩

/-! ## Claim C5: event attribute merging -/

/-- An event carrying one origin and one magnitude but no designated
preferred origin or magnitude. -/
def c5ev : Event := { origins := [⟨1, 2, 30000, 4⟩], magnitudes := [⟨5⟩] }

/-- The same catalog entry with preferred origin and magnitude designated. -/
def c5evPref : Event :=
  { origins := [⟨1, 2, 30000, 4⟩], magnitudes := [⟨5⟩],
    preferredOrigin := some ⟨11, 12, 13000, 14⟩,
    preferredMagnitude := some ⟨15⟩ }

/-- C5: the claim says every canonical event field falls back to the first
listed origin/magnitude when no preferred one is designated.  That is true
of latitude, longitude and time (`__get_event_origin` implements
`preferred_origin() or origins[0]`), and is clearly the intended rule, but
the `event_depth` and `event_magnitude` getters subscript
`event.preferred_origin()` / `event.preferred_magnitude()` directly with no
fallback, so on an event without the designation they subscript `None` and
raise `TypeError`, aborting `obj2stats`.  With a designated preferred
origin/magnitude all five fields do come from it (depth scaled to km). -/
theorem c5_event_getter_no_fallback :
    eventLatitude c5ev = .ok 1 ∧ eventLongitude c5ev = .ok 2 ∧
    eventTimeGet c5ev = .ok 4 ∧
    eventDepth c5ev = .error "TypeError: NoneType object has no attribute __getitem__" ∧
    eventMagnitude c5ev = .error "TypeError: NoneType object has no attribute __getitem__" ∧
    obj2statsEvent c5ev = .error "TypeError: NoneType object has no attribute __getitem__" ∧
    obj2statsEvent c5evPref = .ok ⟨11, 12, 13000 / 1000, 15, 14⟩ ∧
    (13000 : ℚ) / 1000 = 13 := by
  refine ⟨rfl, rfl, rfl, rfl, rfl, rfl, rfl, by norm_num⟩

/-! ## Claim C6: the resample stage -/

def c6tr : PTrace := { channel := "HHZ", sampling_rate := 10, data := [1, 2] }

/-- C6 counterexample: the claim says a trace whose sampling rate is *at or
below* the target is left completely untouched.  The guard in the source is
`downsample <= tr.stats.sampling_rate`, so a trace exactly at the target
rate is handed to `decimate` with factor `int(10) // 10 = 1` — and
`decimate` with its default anti-alias filter is not the identity — contrary
to `claimResampleDecision`, which renders the claim's words and keeps the
at-target trace untouched. -/
theorem c6_at_target_trace_is_decimated :
    resampleDecision 10 10 = some 1 ∧
    claimResampleDecision 10 10 = none ∧
    downsampleStage (fun tr _ => { tr with data := [] }) 10 [c6tr]
      = [{ c6tr with data := [] }] ∧
    ({ c6tr with data := ([] : List ℚ) }) ≠ c6tr := by
  refine ⟨?_, ?_, ?_, ?_⟩ <;> with_unfolding_all decide

/-- C6 (amended): a trace is handed to `decimate` exactly when the target
rate is *at or below* its sampling rate (so an at-target trace is decimated
with factor 1 rather than untouched), with factor
`int(sampling_rate) // downsample = ⌊⌊sr⌋ / d⌋`; only traces strictly below
the target are untouched.  For integer sampling rates the factor coincides
with the claim's `floor(current_rate / target_rate)`. -/
theorem c6_resample_rule (d sr : ℚ) (_hd : 0 < d) :
    (resampleDecision d sr = none ↔ sr < d) ∧
    (d ≤ sr → resampleDecision d sr = some ⌊((⌊sr⌋ : ℚ) / d)⌋) ∧
    (∀ (n : ℤ), d ≤ (n : ℚ) → resampleDecision d (n : ℚ) = some ⌊((n : ℚ) / d)⌋) ∧
    (∀ (decim : PTrace → ℤ → PTrace) (trs : List PTrace),
      downsampleStage decim d trs = trs.map (fun tr =>
        if tr.sampling_rate < d then tr
        else decim tr ⌊((⌊tr.sampling_rate⌋ : ℚ) / d)⌋)) := by
  refine ⟨?_, ?_, ?_, ?_⟩
  · unfold resampleDecision
    by_cases h : d ≤ sr
    · rw [if_pos h]
      exact iff_of_false (by simp) (not_lt.mpr h)
    · rw [if_neg h]
      exact iff_of_true rfl (not_le.mp h)
  · intro h
    unfold resampleDecision
    rw [if_pos h]
  · intro n h
    unfold resampleDecision
    rw [if_pos h, Int.floor_intCast]
  · intro decim trs
    unfold downsampleStage
    congr 1
    funext tr
    by_cases h : d ≤ tr.sampling_rate
    · unfold resampleDecision
      rw [if_pos h, if_neg (not_lt.mpr h)]
    · unfold resampleDecision
      rw [if_neg h, if_pos (not_le.mp h)]

theorem c6_resample_rule_witness :
    (0 : ℚ) < 2 ∧ (2 : ℚ) ≤ 5 ∧
    resampleDecision 2 5 = some ⌊((⌊(5 : ℚ)⌋ : ℚ) / 2)⌋ :=
  ⟨by norm_num, by norm_num, (c6_resample_rule 2 5 (by norm_num)).2.1 (by norm_num)⟩

/-! ## Claim C7: the distance filter of `rfstats` -/

/-- C7: with `dist_range='default'` the interval is `(30, 90)` for phase
`'P'` and `(50, 85)` for `'S'`; a computed distance outside the closed
interval makes `rfstats` return `None` without raising and without writing
any ray field (the model returns `.ok none`, carrying no fields), and a
distance inside it proceeds — at 89 degrees for `'P'` the single-arrival
query completes and writes distance, back-azimuth, inclination, onset and
slowness, while 91 degrees is excluded. -/
theorem c7_distance_filter :
    effRange "P" .dflt = .interval 30 90 ∧
    effRange "S" .dflt = .interval 50 85 ∧
    (∀ dist baz t arrivals, ¬ (30 ≤ dist ∧ dist ≤ 90) →
      rfstatsModel "P" .dflt dist baz t arrivals = .ok none) ∧
    (∀ dist baz t arrivals, ¬ (50 ≤ dist ∧ dist ≤ 85) →
      rfstatsModel "S" .dflt dist baz t arrivals = .ok none) ∧
    (∀ baz t (arr : Arrival), rfstatsModel "P" .dflt 89 baz t [arr]
      = .ok (some ([], ⟨89, baz, arr.incident_angle, t + arr.time,
                       arr.ray_param_sec_degree⟩))) ∧
    (∀ baz t arrivals, rfstatsModel "P" .dflt 91 baz t arrivals = .ok none) := by
  have hp : pyUpper "P" = "P" := by decide
  have hs : pyUpper "S" = "S" := by decide
  have hP : effRange "P" DistRangeArg.dflt = .interval 30 90 := by decide
  have hS : effRange "S" DistRangeArg.dflt = .interval 50 85 := by decide
  refine ⟨hP, hS, ?_, ?_, ?_, ?_⟩
  · intro dist baz t arrivals h
    unfold rfstatsModel
    rw [hp, hP]
    exact if_neg h
  · intro dist baz t arrivals h
    unfold rfstatsModel
    rw [hs, hS]
    exact if_neg h
  · intro baz t arr
    unfold rfstatsModel
    rw [hp, hP]
    exact (if_pos (by norm_num : (30 : ℚ) ≤ 89 ∧ (89 : ℚ) ≤ 90)).trans rfl
  · intro baz t arrivals
    unfold rfstatsModel
    rw [hp, hP]
    exact if_neg (by norm_num)

theorem c7_distance_filter_witness :
    rfstatsModel "P" .dflt 200 0 0 [] = .ok none ∧
    rfstatsModel "S" .dflt 49 0 0 [] = .ok none :=
  ⟨c7_distance_filter.2.2.1 200 0 0 [] (by norm_num),
   c7_distance_filter.2.2.2.1 49 0 0 [] (by norm_num)⟩

/-! ## Claim C8: S-method mirroring and polarity correction -/

lemma polarity_mapM_ok (sc : String) :
    ∀ (l out : List PTrace), l.mapM (polarityStep sc) = .ok out →
      out.length = l.length ∧
      ∀ (i : Nat) (tr p : PTrace), l[i]? = some tr → out[i]? = some p →
        ∃ ch, tr.channel.data.getLast? = some ch ∧
          p = (if sc.data.contains ch then tr
               else { tr with data := tr.data.map (fun x => -x) }) := by
  intro l
  induction l with
  | nil =>
    intro out h
    simp only [List.mapM_nil, pure] at h
    cases h
    exact ⟨rfl, by intro i tr p h1 _; simp at h1⟩
  | cons a l ih =>
    intro out h
    rw [List.mapM_cons] at h
    cases hfa : polarityStep sc a with
    | error e => rw [hfa] at h; simp [Bind.bind, Except.bind] at h
    | ok b =>
      rw [hfa] at h
      cases hml : l.mapM (polarityStep sc) with
      | error e => rw [hml] at h; simp [Bind.bind, Except.bind] at h
      | ok bs =>
        rw [hml] at h
        simp only [Bind.bind, Except.bind, pure, Except.pure] at h
        cases h
        obtain ⟨ihl, ihrel⟩ := ih bs hml
        refine ⟨by simp [ihl], ?_⟩
        intro i tr p h1 h2
        cases i with
        | zero =>
          simp only [List.getElem?_cons_zero, Option.some.injEq] at h1 h2
          subst h1
          subst h2
          unfold polarityStep at hfa
          cases hch : a.channel.data.getLast? with
          | none => rw [hch] at hfa; exact absurd hfa (by simp)
          | some ch =>
            rw [hch] at hfa
            refine ⟨ch, rfl, ?_⟩
            have hfa' := hfa
            simp only [Except.ok.injEq] at hfa'
            exact hfa'.symm
        | succ n =>
          simp only [List.getElem?_cons_succ] at h1 h2
          exact ihrel n tr p h1 h2

/-- C8: after the pipeline's deconvolution stage, the remaining two stages
are the S-method mirroring and the polarity loop.  Whenever they complete,
each output trace's samples are exactly the time-reversal of its
post-deconvolution samples for `method = 'S'` (negated as well on a trace
whose final channel character is not a source-component suffix, unchanged in
sign on a source component), and its onset becomes
`starttime + (endtime − original onset)`; under any other method the data
are unreversed and the onset is kept, with the same sign rule. -/
theorem c8_mirror_and_polarity (method sc : String) (mid out : List PTrace)
    (h : rfTail method sc mid = .ok out) :
    out.length = mid.length ∧
    ∀ (i : Nat) (tr p : PTrace), mid[i]? = some tr → out[i]? = some p →
      ∃ ch, tr.channel.data.getLast? = some ch ∧
        p.data = (if sc.data.contains ch
                  then (if method = "S" then tr.data.reverse else tr.data)
                  else (if method = "S" then tr.data.reverse else tr.data).map
                        (fun x => -x)) ∧
        p.onset = (if method = "S"
                   then tr.starttime + (endtimePT tr - tr.onset) else tr.onset) ∧
        p.starttime = tr.starttime ∧ p.channel = tr.channel := by
  unfold rfTail at h
  by_cases hm : method = "S"
  · rw [if_pos hm] at h
    obtain ⟨hlen, hrel⟩ := polarity_mapM_ok sc (mid.map mirror1) out h
    refine ⟨by simpa using hlen, ?_⟩
    intro i tr p h1 h2
    have h1' : (mid.map mirror1)[i]? = some (mirror1 tr) := by
      simp [List.getElem?_map, h1]
    obtain ⟨ch, hch, hp⟩ := hrel i (mirror1 tr) p h1' h2
    have hch' : tr.channel.data.getLast? = some ch := by
      simpa [mirror1] using hch
    refine ⟨ch, hch', ?_⟩
    by_cases hc : ch ∈ sc.data <;>
      simp [hp, hc, hm, mirror1]
  · rw [if_neg hm] at h
    obtain ⟨hlen, hrel⟩ := polarity_mapM_ok sc mid out h
    refine ⟨hlen, ?_⟩
    intro i tr p h1 h2
    obtain ⟨ch, hch, hp⟩ := hrel i tr p h1 h2
    refine ⟨ch, hch, ?_⟩
    by_cases hc : ch ∈ sc.data <;>
      simp [hp, hc, hm]

def c8tr : PTrace := { channel := "HHQ", onset := 3, data := [1, 2, 3] }

def c8out : PTrace := { channel := "HHQ", onset := -1, data := [-3, -2, -1] }

theorem c8_mirror_and_polarity_witness :
    rfTail "S" "LZ" [c8tr] = .ok [c8out] ∧ [c8out].length = [c8tr].length := by
  have h : rfTail "S" "LZ" [c8tr] = .ok [c8out] := by
    with_unfolding_all decide
  exact ⟨h, (c8_mirror_and_polarity "S" "LZ" [c8tr] [c8out] h).1⟩

/-! ## Claim C9: `RFStream.stack` -/

lemma mapM_ok_facts {α β : Type} (f : α → Except String β) :
    ∀ (l : List α) (out : List β), l.mapM f = .ok out →
      out.length = l.length ∧ ∀ b ∈ out, ∃ a ∈ l, f a = .ok b := by
  intro l
  induction l with
  | nil =>
    intro out h
    simp only [List.mapM_nil, pure] at h
    cases h
    exact ⟨rfl, by intro b hb; simp at hb⟩
  | cons a l ih =>
    intro out h
    rw [List.mapM_cons] at h
    cases hfa : f a with
    | error e => rw [hfa] at h; simp [Bind.bind, Except.bind] at h
    | ok b =>
      rw [hfa] at h
      cases hml : l.mapM f with
      | error e => rw [hml] at h; simp [Bind.bind, Except.bind] at h
      | ok bs =>
        rw [hml] at h
        simp only [Bind.bind, Except.bind, pure, Except.pure] at h
        cases h
        obtain ⟨ihl, ihrel⟩ := ih bs hml
        refine ⟨by simp [ihl], ?_⟩
        intro b' hb'
        rcases List.mem_cons.mp hb' with rfl | hmem
        · exact ⟨a, List.mem_cons_self a l, hfa⟩
        · obtain ⟨a', ha', hfa'⟩ := ihrel b' hmem
          exact ⟨a', List.mem_cons_of_mem a ha', hfa'⟩

/-- The three-trace stack example of the claim: one shared identity,
100 samples of constant values 1, 2 and 3, identical onset offsets. -/
def c9e1 : STrace := { channel := "HHZ", onset := 12, data := List.replicate 100 1 }

def c9e2 : STrace := { channel := "HHZ", onset := 12, data := List.replicate 100 2 }

def c9e3 : STrace := { channel := "HHZ", onset := 12, data := List.replicate 100 3 }

def c9eOut : STrace :=
  { channel := "HHZ", starttime := 0, onset := 12, sampling_rate := 1,
    data := List.replicate 100 2 }

def c9u1 : STrace := { channel := "HHZ", data := [1, 1] }

def c9u2 : STrace := { channel := "HHZ", data := [1, 1, 1] }

/-- C9 (amended): `stack` partitions by full identity, produces one trace per
identity whose samples are the element-wise mean of that partition (three
equal-length constant traces 1, 2, 3 of one identity yield a single constant
trace of value 2), and unequal sample counts within a partition are a fatal
error; but the re-attached onset offset (and the sampling rate) come from the
*last trace of the whole stream* — the loop variable leaked by the Python 2
list comprehension `[tr.data for tr in self if tr.id == id]` — applied to the
new trace's epoch start time, not from the partition being stacked. -/
theorem c9_stack_behaviour :
    (∀ (trs : List STrace) (lastTr : STrace) (out : List STrace),
      trs.getLast? = some lastTr → stackModel trs = .ok out →
      out.length = (uniqueIds trs).length ∧
      ∀ o ∈ out, o.starttime = 0 ∧ o.onset = 0 + (lastTr.onset - lastTr.starttime) ∧
        o.sampling_rate = lastTr.sampling_rate) ∧
    stackModel [c9e1, c9e2, c9e3] = .ok [c9eOut] ∧
    c9eOut.data = List.replicate 100 2 ∧
    stackModel [c9u1, c9u2] = .error "ValueError: ragged nested sequences" := by
  refine ⟨?_, ?_, rfl, by with_unfolding_all decide⟩
  · intro trs lastTr out hlast hout
    unfold stackModel at hout
    rw [hlast] at hout
    obtain ⟨hlen, hrel⟩ := mapM_ok_facts _ (uniqueIds trs) out hout
    refine ⟨hlen, ?_⟩
    intro o ho
    obtain ⟨id, _, hf⟩ := hrel o ho
    cases hmean : npMeanAxis0 ((trs.filter (fun tr => sId tr = id)).map
        (fun tr => tr.data)) with
    | error e => rw [hmean] at hf; exact absurd hf (by simp)
    | ok md =>
      rw [hmean] at hf
      simp only [Except.ok.injEq] at hf
      subst hf
      exact ⟨rfl, rfl, rfl⟩
  · with_unfolding_all decide

theorem c9_stack_behaviour_witness :
    [c9eOut].length = (uniqueIds [c9e1, c9e2, c9e3]).length ∧
    c9eOut.onset = 0 + (c9e3.onset - c9e3.starttime) := by
  obtain ⟨h1, h2⟩ := c9_stack_behaviour.1 [c9e1, c9e2, c9e3] c9e3 [c9eOut] rfl
    c9_stack_behaviour.2.1
  exact ⟨h1, (h2 c9eOut (List.mem_singleton.mpr rfl)).2.1⟩

def c9a1 : STrace := { station := "A", starttime := 10, onset := 15, data := [1, 1] }

def c9a2 : STrace := { station := "A", starttime := 20, onset := 25, data := [3, 3] }

def c9b1 : STrace := { station := "B", starttime := 0, onset := 7, data := [5, 5] }

/-- C9 counterexample: both traces of identity `A` carry the onset offset 5,
yet because the stream's final trace (identity `B`, offset 7) is what the
leaked comprehension variable `tr` holds, the stacked `A` trace is produced
with onset `0 + 7`, not `0 + 5` — so the claim's rule that the new onset is
"the (onset minus start time) offset" of the stacked partition fails on this
three-trace input. -/
theorem c9_stack_counterexample :
    c9a1.onset - c9a1.starttime = 5 ∧ c9a2.onset - c9a2.starttime = 5 ∧
    c9b1.onset - c9b1.starttime = 7 ∧
    stackModel [c9a1, c9a2, c9b1] =
      .ok [{ station := "A", starttime := 0, onset := 7, sampling_rate := 1,
             data := [2, 2] },
           { station := "B", starttime := 0, onset := 7, sampling_rate := 1,
             data := [5, 5] }] ∧
    (7 : ℚ) ≠ 0 + 5 := by
  refine ⟨?_, ?_, ?_, ?_, ?_⟩ <;> with_unfolding_all decide

/-! ## Decode-path lemmas shared by the SAC claims -/

/-- The nested-match normal form of the sac decode loop; the two convertible
scrutinees read the canonical fields untouched by positions 0-6. -/
lemma readSacCanon_unfold (rt : ℚ) (m : SacMap) (c : Canon) :
    readSacCanon rt m c
      = match slotReadSacConv rt m.o c.event_time with
        | .error e => .error e
        | .ok et =>
          match slotReadSacConv rt m.a c.onset with
          | .error e => .error e
          | .ok onv =>
            .ok { readSacPlainB m (readSacPlainA m c) with
                  event_time := et, onset := onv } := rfl

lemma readHeader_sac_eq (c : Canon) (m : SacMap) (sh0 : Option ShMap) (rt : ℚ) :
    readHeader .sac ⟨c, some m, sh0, rt⟩
      = match readSacCanon rt m c with
        | .error e => .error e
        | .ok c' => .ok ⟨c', some m, sh0, rt⟩ := rfl

/-- The only exception the convertible decode step raises is the obspy
`TypeError` from adding the reference time to a retained `UTCDateTime`. -/
lemma slotReadSacConv_error_inv (rt : ℚ) (slot old : Option ℚ) (e : String)
    (h : slotReadSacConv rt slot old = .error e) :
    e = "TypeError: unsupported operand type(s) for +: float and UTCDateTime" := by
  cases slot with
  | none => simp [slotReadSacConv] at h
  | some v =>
    by_cases hs : hasSentinel (pyStrQ v) = true
    · simp only [slotReadSacConv, hs, if_true] at h
      cases old with
      | none => simp at h
      | some w =>
        simp only [Except.error.injEq] at h
        exact h.symm
    · simp only [slotReadSacConv, hs, Bool.false_eq_true, if_false] at h
      simp at h

lemma readSacCanon_ok_inv (rt : ℚ) (m : SacMap) (c c' : Canon)
    (h : readSacCanon rt m c = .ok c') :
    ∃ et onv, slotReadSacConv rt m.o c.event_time = .ok et ∧
      slotReadSacConv rt m.a c.onset = .ok onv ∧
      c' = { readSacPlainB m (readSacPlainA m c) with
             event_time := et, onset := onv } := by
  rw [readSacCanon_unfold] at h
  cases ho : slotReadSacConv rt m.o c.event_time with
  | error e => rw [ho] at h; exact absurd h (by simp)
  | ok et =>
    rw [ho] at h
    cases ha : slotReadSacConv rt m.a c.onset with
    | error e => rw [ha] at h; exact absurd h (by simp)
    | ok onv =>
      rw [ha] at h
      simp only [Except.ok.injEq] at h
      exact ⟨et, onv, rfl, rfl, h.symm⟩

lemma readHeader_sac_ok_inv (c : Canon) (m : SacMap) (sh0 : Option ShMap) (rt : ℚ)
    (st' : Stats) (h : readHeader .sac ⟨c, some m, sh0, rt⟩ = .ok st') :
    ∃ c', readSacCanon rt m c = .ok c' ∧ st' = ⟨c', some m, sh0, rt⟩ := by
  rw [readHeader_sac_eq] at h
  cases hc : readSacCanon rt m c with
  | error e => rw [hc] at h; exact absurd h (by simp)
  | ok c' =>
    rw [hc] at h
    simp only [Except.ok.injEq] at h
    exact ⟨c', rfl, h.symm⟩

/-! ## Claim C10: the SAC sentinel test on decode -/

/-- C10: on SAC decode a native slot value is copied into its canonical
field exactly when `'-12345'` does not occur in its string representation.
For the fourteen plain slots a sentinel-matching value is skipped and the
canonical field keeps its old value; for the two convertible slots (`o` and
`a`) a non-sentinel value is copied and converted to `reftime + value`,
while a sentinel-matching value is never copied — if the canonical field was
absent the conversion's `KeyError` is swallowed and the field stays absent,
and if a canonical time was retained the still-running conversion adds the
reference time to a `UTCDateTime`, raising `TypeError` out of the decode.
In particular the unset sentinel `-12345` never populates a canonical field,
but any other value whose text contains the digit sequence — such as
`-123456` or `-12345.5` — is silently dropped too, while `12345` (no leading
minus in its text) is copied. -/
theorem c10_sac_sentinel_gate (c : Canon) (m : SacMap) (sh0 : Option ShMap) (rt : ℚ) :
    (∀ st', readHeader .sac ⟨c, some m, sh0, rt⟩ = .ok st' →
      (∀ v, m.stla = some v → st'.canon.station_latitude
        = (if hasSentinel (pyStrQ v) then c.station_latitude else some v)) ∧
      (∀ v, m.stlo = some v → st'.canon.station_longitude
        = (if hasSentinel (pyStrQ v) then c.station_longitude else some v)) ∧
      (∀ v, m.stel = some v → st'.canon.station_elevation
        = (if hasSentinel (pyStrQ v) then c.station_elevation else some v)) ∧
      (∀ v, m.evla = some v → st'.canon.event_latitude
        = (if hasSentinel (pyStrQ v) then c.event_latitude else some v)) ∧
      (∀ v, m.evlo = some v → st'.canon.event_longitude
        = (if hasSentinel (pyStrQ v) then c.event_longitude else some v)) ∧
      (∀ v, m.evdp = some v → st'.canon.event_depth
        = (if hasSentinel (pyStrQ v) then c.event_depth else some v)) ∧
      (∀ v, m.mag = some v → st'.canon.event_magnitude
        = (if hasSentinel (pyStrQ v) then c.event_magnitude else some v)) ∧
      (∀ v, m.o = some v → hasSentinel (pyStrQ v) = false →
        st'.canon.event_time = some (rt + v)) ∧
      (∀ v, m.o = some v → hasSentinel (pyStrQ v) = true →
        c.event_time = none ∧ st'.canon.event_time = none) ∧
      (∀ v, m.a = some v → hasSentinel (pyStrQ v) = false →
        st'.canon.onset = some (rt + v)) ∧
      (∀ v, m.a = some v → hasSentinel (pyStrQ v) = true →
        c.onset = none ∧ st'.canon.onset = none) ∧
      (∀ v, m.gcarc = some v → st'.canon.distance
        = (if hasSentinel (pyStrQ v) then c.distance else some v)) ∧
      (∀ v, m.baz = some v → st'.canon.back_azimuth
        = (if hasSentinel (pyStrQ v) then c.back_azimuth else some v)) ∧
      (∀ v, m.user0 = some v → st'.canon.inclination
        = (if hasSentinel (pyStrQ v) then c.inclination else some v)) ∧
      (∀ v, m.user1 = some v → st'.canon.slowness
        = (if hasSentinel (pyStrQ v) then c.slowness else some v)) ∧
      (∀ v, m.user2 = some v → st'.canon.pp_latitude
        = (if hasSentinel (pyStrQ v) then c.pp_latitude else some v)) ∧
      (∀ v, m.user3 = some v → st'.canon.pp_longitude
        = (if hasSentinel (pyStrQ v) then c.pp_longitude else some v)) ∧
      (∀ v, m.user4 = some v → st'.canon.pp_depth
        = (if hasSentinel (pyStrQ v) then c.pp_depth else some v))) ∧
    (∀ v w, m.o = some v → hasSentinel (pyStrQ v) = true → c.event_time = some w →
      readHeader .sac ⟨c, some m, sh0, rt⟩
        = .error "TypeError: unsupported operand type(s) for +: float and UTCDateTime") ∧
    (∀ v w, m.a = some v → hasSentinel (pyStrQ v) = true → c.onset = some w →
      readHeader .sac ⟨c, some m, sh0, rt⟩
        = .error "TypeError: unsupported operand type(s) for +: float and UTCDateTime") ∧
    hasSentinel (pyStrQ (-12345)) = true ∧
    hasSentinel (pyStrQ (-123456)) = true ∧
    pyStrQ (mkRat (-24691) 2) = "-12345.5".data ∧
    hasSentinel (pyStrQ (mkRat (-24691) 2)) = true ∧
    hasSentinel (pyStrQ 12345) = false := by
  refine ⟨?_, ?_, ?_, by decide, by decide, by decide, by decide, by decide⟩
  · intro st' hok
    obtain ⟨c', hc', rfl⟩ := readHeader_sac_ok_inv c m sh0 rt st' hok
    obtain ⟨et, onv, ho, ha, rfl⟩ := readSacCanon_ok_inv rt m c c' hc'
    refine ⟨?_, ?_, ?_, ?_, ?_, ?_, ?_, ?_, ?_, ?_, ?_, ?_, ?_, ?_, ?_, ?_, ?_, ?_⟩
    · intro v hv
      show slotReadSac m.stla c.station_latitude = _
      rw [hv]
      rfl
    · intro v hv
      show slotReadSac m.stlo c.station_longitude = _
      rw [hv]
      rfl
    · intro v hv
      show slotReadSac m.stel c.station_elevation = _
      rw [hv]
      rfl
    · intro v hv
      show slotReadSac m.evla c.event_latitude = _
      rw [hv]
      rfl
    · intro v hv
      show slotReadSac m.evlo c.event_longitude = _
      rw [hv]
      rfl
    · intro v hv
      show slotReadSac m.evdp c.event_depth = _
      rw [hv]
      rfl
    · intro v hv
      show slotReadSac m.mag c.event_magnitude = _
      rw [hv]
      rfl
    · intro v hv hsF
      rw [hv] at ho
      simp only [slotReadSacConv, hsF, Bool.false_eq_true, if_false,
        Except.ok.injEq] at ho
      exact ho.symm
    · intro v hv hsT
      rw [hv] at ho
      simp only [slotReadSacConv, hsT, if_true] at ho
      cases hce : c.event_time with
      | some w => rw [hce] at ho; exact absurd ho (by simp)
      | none =>
        rw [hce] at ho
        simp only [Except.ok.injEq] at ho
        exact ⟨rfl, ho.symm⟩
    · intro v hv hsF
      rw [hv] at ha
      simp only [slotReadSacConv, hsF, Bool.false_eq_true, if_false,
        Except.ok.injEq] at ha
      exact ha.symm
    · intro v hv hsT
      rw [hv] at ha
      simp only [slotReadSacConv, hsT, if_true] at ha
      cases hco : c.onset with
      | some w => rw [hco] at ha; exact absurd ha (by simp)
      | none =>
        rw [hco] at ha
        simp only [Except.ok.injEq] at ha
        exact ⟨rfl, ha.symm⟩
    · intro v hv
      show slotReadSac m.gcarc c.distance = _
      rw [hv]
      rfl
    · intro v hv
      show slotReadSac m.baz c.back_azimuth = _
      rw [hv]
      rfl
    · intro v hv
      show slotReadSac m.user0 c.inclination = _
      rw [hv]
      rfl
    · intro v hv
      show slotReadSac m.user1 c.slowness = _
      rw [hv]
      rfl
    · intro v hv
      show slotReadSac m.user2 c.pp_latitude = _
      rw [hv]
      rfl
    · intro v hv
      show slotReadSac m.user3 c.pp_longitude = _
      rw [hv]
      rfl
    · intro v hv
      show slotReadSac m.user4 c.pp_depth = _
      rw [hv]
      rfl
  · intro v w hv hsT hcw
    have hstep : slotReadSacConv rt m.o c.event_time
        = .error "TypeError: unsupported operand type(s) for +: float and UTCDateTime" := by
      rw [hv, hcw]
      simp only [slotReadSacConv, hsT, if_true]
    rw [readHeader_sac_eq, readSacCanon_unfold, hstep]
  · intro v w hv hsT hcw
    have hstepA : slotReadSacConv rt m.a c.onset
        = .error "TypeError: unsupported operand type(s) for +: float and UTCDateTime" := by
      rw [hv, hcw]
      simp only [slotReadSacConv, hsT, if_true]
    rw [readHeader_sac_eq, readSacCanon_unfold]
    cases ho : slotReadSacConv rt m.o c.event_time with
    | error e =>
      have he := slotReadSacConv_error_inv rt m.o c.event_time e ho
      subst he
      rfl
    | ok et =>
      rw [hstepA]

def c10c : Canon := { onset := some 100 }

def c10m : SacMap := { stla := some 7, a := some 50, o := some (-12345) }

/-- The decode result at the witness stats: the non-sentinel `stla` and `a`
slots are copied (the latter converted), the sentinel `o` slot with absent
canonical `event_time` takes the `KeyError`-pass path. -/
def c10st : Stats :=
  ⟨{ station_latitude := some 7, onset := some (3 + 50) }, some c10m, none, 3⟩

theorem c10_sac_sentinel_gate_witness :
    c10st.canon.station_latitude = some 7 ∧
    c10st.canon.onset = some (3 + 50) ∧
    c10st.canon.event_time = none := by
  have hok : readHeader .sac ⟨c10c, some c10m, none, 3⟩ = .ok c10st := by rfl
  obtain ⟨hb, _, _, _, _, _, _, _⟩ := c10_sac_sentinel_gate c10c c10m none 3
  obtain ⟨h1, _, _, _, _, _, _, _, hoT, haF, _, _, _, _, _, _, _, _⟩ := hb c10st hok
  refine ⟨?_, ?_, ?_⟩
  · rw [h1 7 rfl]
    decide
  · exact haF 50 rfl (by decide)
  · exact (hoT (-12345) rfl (by decide)).2

/-! ## Claim C1: encode/decode round trip

Helper lemmas about the canonical-field getters and setters and about the
decoded `COMMENT` payload. -/

lemma canonGet_canonSet (c : Canon) (h h' : Head) (v : ℚ) :
    canonGet (canonSet c h v) h' = if h' = h then some v else canonGet c h' := by
  cases h <;> cases h' <;> simp [canonGet, canonSet]

lemma nameToHead_headName : ∀ h : Head, nameToHead (headName h) = some h := by
  intro h; cases h <;> decide

lemma head_mem_allHeads : ∀ h : Head, h ∈ allHeads := by
  intro h; cases h <;> decide

lemma canonGet_setByName (c : Canon) (k : String) (v : ℚ) (h : Head) :
    canonGet (canonSetByName c k v) h
      = if nameToHead k = some h then some v else canonGet c h := by
  unfold canonSetByName
  cases hk : nameToHead k with
  | none => simp
  | some h0 =>
    by_cases he : h = h0
    · subst he; simp [canonGet_canonSet]
    · rw [canonGet_canonSet, if_neg he,
        if_neg (fun hx => he (Option.some_inj.mp hx).symm)]

lemma applyPayload_get_of_not_mem :
    ∀ (pay : List (String × ℚ)) (c : Canon) (h : Head),
      (∀ kv ∈ pay, nameToHead kv.1 ≠ some h) →
      canonGet (applyPayload c pay) h = canonGet c h := by
  intro pay
  induction pay with
  | nil => intro c h _; rfl
  | cons kv rest ih =>
    intro c h hno
    show canonGet (applyPayload (canonSetByName c kv.1 kv.2) rest) h = canonGet c h
    rw [ih _ h (fun kv' hm => hno kv' (List.mem_cons_of_mem _ hm)),
      canonGet_setByName, if_neg (hno kv (List.mem_cons_self _ _))]

lemma applyPayload_get_unique :
    ∀ (pay : List (String × ℚ)) (h : Head) (v : ℚ),
      (∃ kv ∈ pay, nameToHead kv.1 = some h) →
      (∀ kv ∈ pay, nameToHead kv.1 = some h → kv.2 = v) →
      ∀ c, canonGet (applyPayload c pay) h = some v := by
  intro pay
  induction pay with
  | nil =>
    intro h v hmem _ c
    rcases hmem with ⟨kv, hkv, _⟩
    simp at hkv
  | cons kv rest ih =>
    intro h v hmem huniq c
    show canonGet (applyPayload (canonSetByName c kv.1 kv.2) rest) h = some v
    by_cases hr : ∃ kv' ∈ rest, nameToHead kv'.1 = some h
    · exact ih h v hr (fun kv' hm hh => huniq kv' (List.mem_cons_of_mem _ hm) hh) _
    · push_neg at hr
      have hkv : nameToHead kv.1 = some h := by
        rcases hmem with ⟨kv0, hkv0, hh0⟩
        rcases List.mem_cons.mp hkv0 with rfl | hmem0
        · exact hh0
        · exact absurd hh0 (hr kv0 hmem0)
      rw [applyPayload_get_of_not_mem rest _ h hr, canonGet_setByName, if_pos hkv,
        huniq kv (List.mem_cons_self _ _) hkv]

lemma mem_commentPayload (c : Canon) :
    ∀ kv ∈ commentPayload c,
      ∃ h, shUsesComment h = true ∧ kv.1 = headName h ∧ canonGet c h = some kv.2 := by
  intro kv hkv
  unfold commentPayload at hkv
  obtain ⟨h, hh, hfh⟩ := List.mem_filterMap.mp hkv
  have hc := (List.mem_filter.mp hh).2
  cases hcg : canonGet c h with
  | none => rw [hcg] at hfh; exact absurd hfh (by simp)
  | some w =>
    rw [hcg] at hfh
    simp only [Option.map_some', Option.some.injEq] at hfh
    subst hfh
    exact ⟨h, hc, rfl, hcg⟩

lemma commentPayload_mem_of_present (c : Canon) (h : Head) (v : ℚ)
    (hc : shUsesComment h = true) (hv : canonGet c h = some v) :
    (headName h, v) ∈ commentPayload c := by
  unfold commentPayload
  exact List.mem_filterMap.mpr
    ⟨h, List.mem_filter.mpr ⟨head_mem_allHeads h, hc⟩, by rw [hv]; rfl⟩

/-- The numeric SH slot positionally assigned to a canonical head (the
`COMMENT`-mapped heads have no numeric slot). -/
def shSlotGet (m : ShMap) : Head → Option ℚ
  | .event_latitude => m.lat
  | .event_longitude => m.lon
  | .event_depth => m.depth
  | .event_magnitude => m.magnitude
  | .event_time => m.origin
  | .onset => m.ponset
  | .distance => m.distance
  | .back_azimuth => m.azimuth
  | .inclination => m.inci
  | .slowness => m.slowness
  | _ => none

lemma readShDirect_get (m : ShMap) (x : Canon) (h : Head) :
    canonGet (readShDirect m x) h
      = if shUsesComment h then canonGet x h
        else slotReadSh (shSlotGet m h) (canonGet x h) := by
  cases h <;> simp [readShDirect, canonGet, shUsesComment, shSlotGet]

lemma writeShMap_slot (c : Canon) (m : ShMap) (h : Head)
    (hd : shUsesComment h = false) :
    shSlotGet (writeShMap c m) h = slotWrite (canonGet c h) (shSlotGet m h) := by
  cases h <;> simp_all [writeShMap, shUsesComment, shSlotGet, canonGet]

lemma writeShMap_comment (c : Canon) (m : ShMap) :
    (writeShMap c m).comment
      = if (commentPayload c).isEmpty then m.comment else some (commentPayload c) :=
  rfl

/-- One convertible slot through encode-then-decode: under the
no-sentinel-collision hypothesis for a present canonical value the step
always succeeds, and a present value is restored
(`reftime + (v - reftime) = v`); an absent canonical value leaves only the
stale slot, whose sentinel variant takes the harmless `KeyError`-pass path. -/
lemma slotReadSacConv_write_ok (rt : ℚ) (cv stale : Option ℚ)
    (hs : ∀ v, cv = some v → hasSentinel (pyStrQ (v - rt)) = false) :
    ∃ w, slotReadSacConv rt (slotWriteSacConv rt cv stale) cv = .ok w ∧
      ∀ v, cv = some v → w = some v := by
  cases cv with
  | some v =>
    have hv := hs v rfl
    refine ⟨some (rt + (v - rt)), ?_, ?_⟩
    · simp only [slotWriteSacConv, slotReadSacConv, hv, Bool.false_eq_true, if_false]
    · intro v' hv'
      cases Option.some_inj.mp hv'
      rw [add_sub_cancel]
  | none =>
    cases stale with
    | none => exact ⟨none, rfl, by intro v hv; exact absurd hv (by simp)⟩
    | some u =>
      by_cases hsu : hasSentinel (pyStrQ u) = true
      · refine ⟨none, ?_, by intro v hv; exact absurd hv (by simp)⟩
        simp only [slotWriteSacConv, slotReadSacConv, hsu, if_true]
      · refine ⟨some (rt + u), ?_, by intro v hv; exact absurd hv (by simp)⟩
        simp only [slotWriteSacConv, slotReadSacConv, hsu, Bool.false_eq_true, if_false]

/-- The SAC half of the round trip: under the no-sentinel-collision
hypotheses for the two convertible heads the decode of the written map
succeeds, and every canonical field present before encode is restored. -/
lemma sacRound (c : Canon) (m0 : Option SacMap) (rt : ℚ)
    (hsA : ∀ v, c.onset = some v → hasSentinel (pyStrQ (v - rt)) = false)
    (hsO : ∀ v, c.event_time = some v → hasSentinel (pyStrQ (v - rt)) = false) :
    ∃ c', readSacCanon rt (writeSacMap rt c (m0.getD emptySacMap)) c = .ok c' ∧
      ∀ h v, canonGet c h = some v → canonGet c' h = some v := by
  obtain ⟨et, hoe, hop⟩ :=
    slotReadSacConv_write_ok rt c.event_time (m0.getD emptySacMap).o hsO
  obtain ⟨onv, hae, hap⟩ :=
    slotReadSacConv_write_ok rt c.onset (m0.getD emptySacMap).a hsA
  refine ⟨{ readSacPlainB (writeSacMap rt c (m0.getD emptySacMap))
      (readSacPlainA (writeSacMap rt c (m0.getD emptySacMap)) c) with
      event_time := et, onset := onv }, ?_, ?_⟩
  · rw [readSacCanon_unfold,
      show (writeSacMap rt c (m0.getD emptySacMap)).o
        = slotWriteSacConv rt c.event_time (m0.getD emptySacMap).o from rfl,
      show (writeSacMap rt c (m0.getD emptySacMap)).a
        = slotWriteSacConv rt c.onset (m0.getD emptySacMap).a from rfl,
      hoe, hae]
  · intro h v hv
    cases h with
    | onset =>
      simp only [canonGet] at hv ⊢
      exact hap v hv
    | event_time =>
      simp only [canonGet] at hv ⊢
      exact hop v hv
    | _ =>
      simp only [canonGet] at hv
      simp [readSacPlainA, readSacPlainB, writeSacMap, canonGet, slotWrite,
        slotReadSac, hv]

/-- The SH half of the round trip, field by field, under the stale-`COMMENT`
hypothesis. -/
lemma shRoundField (c : Canon) (m0 : Option ShMap) (h : Head) (v : ℚ)
    (hv : canonGet c h = some v)
    (hstale : (commentPayload c).isEmpty = true →
      ∀ pay, (m0.getD emptyShMap).comment = some pay →
      ∀ kv ∈ pay, ∀ h', nameToHead kv.1 = some h' → shUsesComment h' = false →
        canonGet c h' = none) :
    canonGet (readShCanon (writeShMap c (m0.getD emptyShMap)) c) h = some v := by
  by_cases hP : (commentPayload c).isEmpty
  · -- payload empty: no comment-mapped head is present, so h is direct and the
    -- COMMENT slot (if any) is the pre-existing one, constrained by hstale
    have hdir : shUsesComment h = false := by
      cases hb : shUsesComment h with
      | false => rfl
      | true =>
        have hmem := commentPayload_mem_of_present c h v hb hv
        exact absurd (List.isEmpty_iff.mp hP) (List.ne_nil_of_mem hmem)
    have hMc : (writeShMap c (m0.getD emptyShMap)).comment
        = (m0.getD emptyShMap).comment := by
      rw [writeShMap_comment, if_pos hP]
    have hstep : ∀ x, canonGet (shCommentStep (writeShMap c (m0.getD emptyShMap)) x) h
        = canonGet x h := by
      intro x
      unfold shCommentStep
      rw [hMc]
      cases hmc : (m0.getD emptyShMap).comment with
      | none => rfl
      | some stale =>
        refine applyPayload_get_of_not_mem stale x h ?_
        intro kv hkv hname
        obtain ⟨h', hname'⟩ : ∃ h', nameToHead kv.1 = some h' := ⟨h, hname⟩
        have habs := hstale hP stale hmc kv hkv h hname hdir
        rw [hv] at habs
        exact absurd habs (by simp)
    unfold readShCanon
    rw [hstep, hstep, hstep, readShDirect_get, hdir]
    simp only [Bool.false_eq_true, if_false]
    rw [hstep, hstep, hstep, writeShMap_slot c _ h hdir]
    simp only [canonGet] at hv ⊢
    rw [hv]
    rfl
  · -- payload non-empty: the COMMENT slot holds the freshly packed payload
    have hMc : (writeShMap c (m0.getD emptyShMap)).comment
        = some (commentPayload c) := by
      rw [writeShMap_comment, if_neg hP]
    by_cases hc : shUsesComment h = true
    · -- overflow head: the outermost payload application restores it
      have hmem : ∃ kv ∈ commentPayload c, nameToHead kv.1 = some h :=
        ⟨(headName h, v), commentPayload_mem_of_present c h v hc hv,
         nameToHead_headName h⟩
      have huniq : ∀ kv ∈ commentPayload c, nameToHead kv.1 = some h → kv.2 = v := by
        intro kv hkv hname
        obtain ⟨h', hc', h1, h2⟩ := mem_commentPayload c kv hkv
        rw [h1, nameToHead_headName] at hname
        cases Option.some_inj.mp hname
        rw [hv] at h2
        exact (Option.some_inj.mp h2).symm
      have hstep : ∀ x, canonGet (shCommentStep (writeShMap c (m0.getD emptyShMap)) x) h
          = some v := by
        intro x
        unfold shCommentStep
        rw [hMc]
        exact applyPayload_get_unique (commentPayload c) h v hmem huniq x
      unfold readShCanon
      rw [hstep]
    · -- direct head: the payload never touches it, the numeric slot restores it
      have hdir : shUsesComment h = false := by
        cases hb : shUsesComment h with
        | false => rfl
        | true => exact absurd hb hc
      have hno : ∀ kv ∈ commentPayload c, nameToHead kv.1 ≠ some h := by
        intro kv hkv hname
        obtain ⟨h', hc', h1, _⟩ := mem_commentPayload c kv hkv
        rw [h1, nameToHead_headName] at hname
        cases Option.some_inj.mp hname
        rw [hc'] at hdir
        exact absurd hdir (by simp)
      have hstep : ∀ x, canonGet (shCommentStep (writeShMap c (m0.getD emptyShMap)) x) h
          = canonGet x h := by
        intro x
        unfold shCommentStep
        rw [hMc]
        exact applyPayload_get_of_not_mem (commentPayload c) x h hno
      unfold readShCanon
      rw [hstep, hstep, hstep, readShDirect_get, hdir]
      simp only [Bool.false_eq_true, if_false]
      rw [hstep, hstep, hstep, writeShMap_slot c _ h hdir]
      simp only [canonGet] at hv ⊢
      rw [hv]
      rfl

/-- C1 (amended): for the SH format and its Q alias, encode followed by
decode succeeds and restores every canonical field present before encoding —
including the six fields packed through the overflow `COMMENT` slot —
provided that, when *no* overflow field is present (so the packed payload is
empty and a pre-existing `COMMENT` value survives the write), that stale
payload does not assign a directly-mapped canonical field that is present in
stats.  For the SAC format the decode likewise succeeds and restores every
canonical field, provided the encoded (reference-time shifted) value of
`onset`/`event_time` does not contain `'-12345'` in its string form —
otherwise the sentinel test skips the copy while the registered `__SAC2UTC`
conversion still runs on the retained canonical value, an absolute time, and
obspy's unsupported `UTCDateTime + UTCDateTime` addition raises `TypeError`,
so the decode aborts instead of returning (the counterexample). -/
theorem c1_roundtrip (st : Stats)
    (hsac : ∀ h v, (h = Head.onset ∨ h = Head.event_time) →
      canonGet st.canon h = some v →
      hasSentinel (pyStrQ (v - st.sacReftime)) = false)
    (hsh : (commentPayload st.canon).isEmpty = true →
      ∀ pay, (st.sh.getD emptyShMap).comment = some pay →
      ∀ kv ∈ pay, ∀ h', nameToHead kv.1 = some h' → shUsesComment h' = false →
        canonGet st.canon h' = none) :
    ∀ h v, canonGet st.canon h = some v →
      (∃ st1, readHeader .sac (writeHeader .sac st) = .ok st1 ∧
        canonGet st1.canon h = some v) ∧
      (∃ st2, readHeader .sh (writeHeader .sh st) = .ok st2 ∧
        canonGet st2.canon h = some v) ∧
      (∃ st3, readHeader .q (writeHeader .q st) = .ok st3 ∧
        canonGet st3.canon h = some v) := by
  intro h v hv
  have hsA : ∀ w, st.canon.onset = some w →
      hasSentinel (pyStrQ (w - st.sacReftime)) = false :=
    fun w hw => hsac Head.onset w (Or.inl rfl) hw
  have hsO : ∀ w, st.canon.event_time = some w →
      hasSentinel (pyStrQ (w - st.sacReftime)) = false :=
    fun w hw => hsac Head.event_time w (Or.inr rfl) hw
  obtain ⟨c', hok, hpres⟩ := sacRound st.canon st.sac st.sacReftime hsA hsO
  refine ⟨⟨{ writeSac st with canon := c' }, ?_, hpres h v hv⟩,
    ⟨readSh (writeSh st), rfl, shRoundField st.canon st.sh h v hv hsh⟩,
    ⟨readSh (writeSh st), rfl, shRoundField st.canon st.sh h v hv hsh⟩⟩
  have hrw : readHeader .sac (writeHeader .sac st)
      = match readSacCanon st.sacReftime
          (writeSacMap st.sacReftime st.canon (st.sac.getD emptySacMap))
          st.canon with
        | .error e => .error e
        | .ok x => .ok { writeSac st with canon := x } := rfl
  rw [hrw, hok]

def c1W : Stats :=
  { canon := { station_latitude := some 2, distance := some 40 },
    sac := some {}, sh := some { comment := some [("event_latitude", 99)] },
    sacReftime := 1 }

theorem c1_roundtrip_witness :
    (readHeader .sh (writeHeader .sh c1W)).map
        (fun s => canonGet s.canon .station_latitude) = .ok (some 2) ∧
    (readHeader .sac (writeHeader .sac c1W)).map
        (fun s => canonGet s.canon .distance) = .ok (some 40) := by
  have h := c1_roundtrip c1W
    (by
      intro h v hor hv
      rcases hor with rfl | rfl <;> simp [c1W, canonGet] at hv)
    (by
      intro hP
      exact absurd hP (by decide))
  constructor
  · obtain ⟨st2, he2, hp2⟩ := (h .station_latitude 2 (by decide)).2.1
    rw [he2]
    simp [Except.map, hp2]
  · obtain ⟨st1, he1, hp1⟩ := (h .distance 40 (by decide)).1
    rw [he1]
    simp [Except.map, hp1]

def c1Cex : Stats :=
  { canon := { onset := some (-12344) }, sac := some {}, sh := none,
    sacReftime := 1 }

/-- C1 counterexample: a trace whose `onset` encodes to exactly the SAC
unset sentinel (`onset − reftime = −12345`) does not round-trip through SAC:
on decode the sentinel test skips the copy, but the registered `__SAC2UTC`
conversion still runs and computes `get_sac_reftime(stats.sac) + st['onset']`
on the retained canonical value — a `UTCDateTime`, for which obspy defines no
`+` with another `UTCDateTime` — so the decode raises `TypeError` instead of
returning the trace with its fields intact. -/
theorem c1_roundtrip_counterexample :
    c1Cex.canon.onset = some (-12344) ∧
    readHeader .sac (writeHeader .sac c1Cex)
      = .error "TypeError: unsupported operand type(s) for +: float and UTCDateTime" := by
  constructor
  · rfl
  · have hgate : hasSentinel (pyStrQ ((-12344 : ℚ) - 1)) = true := by
      rw [show ((-12344 : ℚ) - 1) = -12345 from by norm_num]
      decide
    have ha : slotReadSacConv 1 (some ((-12344 : ℚ) - 1)) (some (-12344 : ℚ))
        = .error "TypeError: unsupported operand type(s) for +: float and UTCDateTime" := by
      simp only [slotReadSacConv, hgate, if_true]
    have hrw : readHeader .sac (writeHeader .sac c1Cex)
        = match readSacCanon 1 (writeSacMap 1 c1Cex.canon emptySacMap)
            c1Cex.canon with
          | .error e => .error e
          | .ok x => .ok { writeSac c1Cex with canon := x } := rfl
    rw [hrw, readSacCanon_unfold,
      show slotReadSacConv 1 (writeSacMap 1 c1Cex.canon emptySacMap).o
          c1Cex.canon.event_time = (.ok none : Except String (Option ℚ)) from rfl,
      show slotReadSacConv 1 (writeSacMap 1 c1Cex.canon emptySacMap).a
          c1Cex.canon.onset
        = .error "TypeError: unsupported operand type(s) for +: float and UTCDateTime"
        from ha]

end RF
